import Mathlib

/-!
Shallow embedding of the greenlight request gatekeeper (kcharymyrat/greenlight).

Sources embedded from the repository:
  - cmd/api/routes.go      : the route table and the middleware composition
  - cmd/api/helpers.go     : readIdParam, writeJSON, background
  - cmd/api/moviesHandlers.go : showMovieHandler

The middleware bodies (rateLimit, authenticate, requirePermission, recoverPanic,
metrics, enableCORS), the token/user/permission models and the error-response
helpers live in repository files that are not part of the excerpt; where a claim
depends on them they are modelled from the spec, and each such definition says so
in its doc comment.

Conventions: time and token counts are rationals (Go floats / time.Time carry no
overflow behaviour relevant here); Go strings used only as identifiers stay
`String`; strings that are parsed character by character are `List Char`;
fallible Go calls return `Option` / `Except`; the mutable stores are passed as
explicit state.
-/

namespace Greenlight

/-- Error taxonomy of the gatekeeper (spec section 7). -/
inductive GatewayError where
  | rateLimitExceeded
  | malformedAuthHeader
  | invalidToken
  | expiredToken
  | authenticationRequired
  | accountNotActivated
  | permissionDenied
  | storeUnavailable
  deriving DecidableEq, Repr

/- ------------------------------------------------------------------ -/
/- Pipeline order (routes.go)                                          -/
/- ------------------------------------------------------------------ -/

/-- A stage a request passes through.  `permissionGuard code` is the per-route
guard installed by `requirePermission` in routes.go. -/
inductive Stage where
  | stageMetrics
  | stageRecoverPanic
  | stageEnableCORS
  | stageRateLimit
  | stageAuthenticate
  | routerDispatch
  | permissionGuard (code : String)
  | businessHandler
  deriving DecidableEq, Repr

/-- Each middleware, viewed as a trace transformer: it runs (records its stage)
and then delegates to the handler it wraps.  The stage semantics are abstract;
only the composition order, which is routes.go line 34, is at stake here. -/
def appMetrics (inner : List Stage) : List Stage := Stage.stageMetrics :: inner

def appRecoverPanic (inner : List Stage) : List Stage := Stage.stageRecoverPanic :: inner

def appEnableCORS (inner : List Stage) : List Stage := Stage.stageEnableCORS :: inner

def appRateLimit (inner : List Stage) : List Stage := Stage.stageRateLimit :: inner

def appAuthenticate (inner : List Stage) : List Stage := Stage.stageAuthenticate :: inner

/-- HTTP methods used by the route table. -/
inductive Method where
  | GET | POST | PUT | PATCH | DELETE
  deriving DecidableEq, Repr

/-- One row of the chi route table: method, path pattern, and the permission
code its handler is wrapped with by `requirePermission` (none = unguarded). -/
structure Route where
  method : Method
  pattern : String
  permission : Option String
  deriving DecidableEq, Repr

/-- The route table registered on the chi mux in routes.go lines 18-32. -/
def routes : List Route :=
  [ ⟨Method.GET, "/v1/healthcheck", none⟩,
    ⟨Method.GET, "/v1/movies", some "movies:read"⟩,
    ⟨Method.POST, "/v1/movies", some "movies:write"⟩,
    ⟨Method.GET, "/v1/movies/{id}", some "movies:read"⟩,
    ⟨Method.PATCH, "/v1/movies/{id}", some "movies:write"⟩,
    ⟨Method.DELETE, "/v1/movies/{id}", some "movies:write"⟩,
    ⟨Method.POST, "/v1/users", none⟩,
    ⟨Method.PUT, "/v1/users/activated", none⟩,
    ⟨Method.POST, "/v1/tokens/authentication", none⟩,
    ⟨Method.GET, "/debug/vars", some "metrics:view"⟩ ]

/-- Trace contributed by the mux when it dispatches to route `r`: dispatch,
then the per-route permission guard when the handler is wrapped, then the
business handler. -/
def dispatchTrace (r : Route) : List Stage :=
  Stage.routerDispatch ::
    (match r.permission with
     | some code => [Stage.permissionGuard code, Stage.businessHandler]
     | none => [Stage.businessHandler])

/-- routes.go line 34:
`app.metrics(app.recoverPanic(app.enableCORS(app.rateLimit(app.authenticate(mux)))))`. -/
def pipeline (inner : List Stage) : List Stage :=
  appMetrics (appRecoverPanic (appEnableCORS (appRateLimit (appAuthenticate inner))))

/-- Full trace of a request dispatched to route `r`. -/
def requestTrace (r : Route) : List Stage :=
  pipeline (dispatchTrace r)

/-- `s` occurs strictly before `t` in the trace `tr`. -/
def stageBefore (s t : Stage) (tr : List Stage) : Prop :=
  ∃ i j, i < j ∧ tr.get? i = some s ∧ tr.get? j = some t

/- ------------------------------------------------------------------ -/
/- Token bucket rate limiter                                           -/
/- ------------------------------------------------------------------ -/

/-- Rate limiter configuration (main.go lines 77-79: `rps` float, `burst`
int, `enabled` bool; defaults 2, 4, true). -/
structure LimiterConfig where
  rps : ℚ
  burst : ℕ
  enabled : Bool
  deriving DecidableEq, Repr

/-- Modelled from the spec: the per-client token bucket state of section 3
(the limiter implementation file is not in the excerpt). -/
structure Bucket where
  tokens : ℚ
  lastRefill : ℚ
  lastSeen : ℚ
  deriving DecidableEq, Repr

/-- Modelled from the spec (section 4.1): refill step of `Allow` — add
`elapsed * rps` tokens capped at `burst`, update `lastRefill` and `lastSeen`
to now. -/
def refill (cfg : LimiterConfig) (now : ℚ) (b : Bucket) : Bucket :=
  { tokens := min (b.tokens + (now - b.lastRefill) * cfg.rps) (cfg.burst : ℚ),
    lastRefill := now,
    lastSeen := now }

/-- Modelled from the spec (section 4.1): `Allow` on a single bucket — refill,
then if `tokens ≥ 1` subtract one and allow, else deny consuming nothing. -/
def allowBucket (cfg : LimiterConfig) (now : ℚ) (b : Bucket) : Bool × Bucket :=
  let b2 := refill cfg now b
  if 1 ≤ b2.tokens then (true, { b2 with tokens := b2.tokens - 1 }) else (false, b2)

/-- Modelled from the spec: a bucket created lazily on a client's first
request, at full capacity. -/
def newBucket (cfg : LimiterConfig) (now : ℚ) : Bucket :=
  { tokens := (cfg.burst : ℚ), lastRefill := now, lastSeen := now }

/-- The in-memory client → bucket map, as an association list. -/
abbrev BucketStore := List (String × Bucket)

/-- Go map indexing `clients[ip]` on the bucket store. -/
def lookupBucket (client : String) : BucketStore → Option Bucket
  | [] => none
  | (k, v) :: rest => if k = client then some v else lookupBucket client rest

/-- Replace the bucket stored for `client`, or append it when absent. -/
def replaceOrInsert (client : String) (b : Bucket) : BucketStore → BucketStore
  | [] => [(client, b)]
  | (k, v) :: rest =>
      if k = client then (k, b) :: rest else (k, v) :: replaceOrInsert client b rest

/-- Modelled from the spec (section 4.1): `Allow(clientID)` against the store.
When the limiter is disabled it always allows and creates no bucket; otherwise
the client's bucket (created at full capacity on first sight) is refilled and
consulted. -/
def storeAllow (cfg : LimiterConfig) (now : ℚ) (store : BucketStore) (client : String) :
    Bool × BucketStore :=
  if cfg.enabled = false then (true, store)
  else
    let b := match lookupBucket client store with
      | some b => b
      | none => newBucket cfg now
    let r := allowBucket cfg now b
    (r.1, replaceOrInsert client r.2 store)

/-- Modelled from the spec (section 4.1): the rate limiter middleware decision;
on deny it responds `RateLimitExceeded` and the chain stops. -/
def rateLimitMiddleware (cfg : LimiterConfig) (now : ℚ) (store : BucketStore)
    (client : String) : Except GatewayError Unit × BucketStore :=
  let r := storeAllow cfg now store client
  (if r.1 then Except.ok () else Except.error GatewayError.rateLimitExceeded, r.2)

/-- Modelled from the spec (section 4.1): the background sweep — remove every
bucket whose `lastSeen` is older than the staleness threshold. -/
def sweep (now staleThreshold : ℚ) (store : BucketStore) : BucketStore :=
  store.filter (fun p => decide (now - p.2.lastSeen ≤ staleThreshold))

/-- Iterated `Allow` calls against one bucket, collecting the verdicts. -/
def allowRun (cfg : LimiterConfig) (now : ℚ) : ℕ → Bucket → List Bool × Bucket
  | 0, b => ([], b)
  | n + 1, b =>
      let r := allowBucket cfg now b
      let rest := allowRun cfg now n r.2
      (r.1 :: rest.1, rest.2)

/- ------------------------------------------------------------------ -/
/- Token service and users                                             -/
/- ------------------------------------------------------------------ -/

/-- Token scope (spec section 3). -/
inductive Scope where
  | scopeAuthentication
  | scopeActivation
  deriving DecidableEq, Repr

/-- Modelled from the spec (section 3): a stored token record — hash, owner,
expiry, scope (the data/tokens file is not in the excerpt). -/
structure TokenRec where
  hash : String
  userID : ℕ
  expiry : ℚ
  scope : Scope
  deriving DecidableEq, Repr

/-- Modelled from the spec (section 3): a user record; only the fields the
gatekeeper consults. -/
structure User where
  id : ℕ
  email : String
  activated : Bool
  deriving DecidableEq, Repr

/-- Modelled from the spec: the persistence collaborator's state for tokens
and users. -/
structure Store where
  tokens : List TokenRec
  users : List User
  deriving DecidableEq, Repr

/-- Look up the (unique) live token record with the given hash and scope. -/
def findToken (h : String) (sc : Scope) (toks : List TokenRec) : Option TokenRec :=
  toks.find? (fun t => decide (t.hash = h ∧ t.scope = sc))

/-- Look up a user by id. -/
def findUser (uid : ℕ) (users : List User) : Option User :=
  users.find? (fun u => decide (u.id = uid))

/-- Replace every user record carrying `u.id` with `u`. -/
def updateUser (u : User) (users : List User) : List User :=
  users.map (fun v => if v.id = u.id then u else v)

/-- Modelled from the spec (section 4.2): `Issue(userID, scope, ttl)` —
persist the hash of the plaintext with `expiry = now + ttl`, return the new
record.  The hash function is a parameter: the repository computes SHA-256,
whose algebraic properties play no role in the claims. -/
def issueToken (hash : String → String) (now ttl : ℚ) (uid : ℕ) (sc : Scope)
    (plaintext : String) (st : Store) : Store × TokenRec :=
  let tok : TokenRec := ⟨hash plaintext, uid, now + ttl, sc⟩
  ({ st with tokens := tok :: st.tokens }, tok)

/-- Modelled from the spec (section 4.2): `Authenticate(plaintext)` — hash the
plaintext, look the record up by hash; absent ⇒ `InvalidToken`; `now > expiry`
⇒ `ExpiredToken`; else resolve the owner. -/
def authenticateToken (hash : String → String) (now : ℚ) (plaintext : String)
    (st : Store) : Except GatewayError User :=
  match findToken (hash plaintext) Scope.scopeAuthentication st.tokens with
  | none => Except.error GatewayError.invalidToken
  | some tok =>
      if tok.expiry < now then Except.error GatewayError.expiredToken
      else
        match findUser tok.userID st.users with
        | none => Except.error GatewayError.storeUnavailable
        | some u => Except.ok u

/-- Modelled from the spec (section 4.2): `ConsumeActivation(plaintext)` —
same hash/expiry validation restricted to the activation scope; on success,
atomically mark the owner activated and delete the token record.  The whole
function is one atomic step: concurrent attempts interleave as a sequence of
these steps. -/
def consumeActivation (hash : String → String) (now : ℚ) (plaintext : String)
    (st : Store) : Except GatewayError User × Store :=
  match findToken (hash plaintext) Scope.scopeActivation st.tokens with
  | none => (Except.error GatewayError.invalidToken, st)
  | some tok =>
      if tok.expiry < now then (Except.error GatewayError.expiredToken, st)
      else
        match findUser tok.userID st.users with
        | none => (Except.error GatewayError.storeUnavailable, st)
        | some u =>
            let u2 : User := { u with activated := true }
            (Except.ok u2,
             { tokens := st.tokens.filter
                 (fun t => decide (¬ (t.hash = hash plaintext ∧ t.scope = Scope.scopeActivation))),
               users := updateUser u2 st.users })

/- ------------------------------------------------------------------ -/
/- Authenticator middleware                                            -/
/- ------------------------------------------------------------------ -/

/-- Modelled from the spec (section 4.3): the Authorization header grammar —
exactly `Bearer <token>`: the seven characters `Bearer ` followed by a single
nonempty token containing no space. -/
def parseBearer (hv : List Char) : Option (List Char) :=
  if hv.take 7 = "Bearer ".data then
    let tok := hv.drop 7
    if tok ≠ [] ∧ ¬ (tok.contains ' ' = true) then some tok else none
  else none

/-- Outcome of the authenticator middleware. -/
inductive AuthResult where
  | anonymous
  | authenticated (u : User)
  | failed (e : GatewayError)
  deriving DecidableEq, Repr

/-- Modelled from the spec (section 4.3): the authenticator middleware.  The
second component counts Token Service invocations (store lookups), so that
"without invoking the Token Service" is expressible. -/
def authenticateMiddleware (hash : String → String) (now : ℚ)
    (header : Option (List Char)) (st : Store) : AuthResult × ℕ :=
  match header with
  | none => (AuthResult.anonymous, 0)
  | some hv =>
      match parseBearer hv with
      | none => (AuthResult.failed GatewayError.malformedAuthHeader, 0)
      | some tok =>
          match authenticateToken hash now (String.mk tok) st with
          | Except.ok u => (AuthResult.authenticated u, 1)
          | Except.error e => (AuthResult.failed e, 1)

/- ------------------------------------------------------------------ -/
/- Permission authorizer                                               -/
/- ------------------------------------------------------------------ -/

/-- The user ↔ permission-code association, read-only for the gatekeeper. -/
abbrev Permissions := List (ℕ × String)

/-- The permission codes held by user `uid`. -/
def permissionCodes (uid : ℕ) (perms : Permissions) : List String :=
  (perms.filter (fun p => decide (p.1 = uid))).map Prod.snd

/-- Modelled from the spec (section 4.4): the guard decision of
`RequirePermission(code, handler)` — anonymous ⇒ `AuthenticationRequired`;
not activated ⇒ `AccountNotActivated`; code absent ⇒ `PermissionDenied`;
else pass. -/
def requirePermissionCheck (code : String) (identity : Option User)
    (perms : Permissions) : Except GatewayError Unit :=
  match identity with
  | none => Except.error GatewayError.authenticationRequired
  | some u =>
      if u.activated = false then Except.error GatewayError.accountNotActivated
      else if code ∈ permissionCodes u.id perms then Except.ok ()
      else Except.error GatewayError.permissionDenied

/-- Modelled from the spec (section 4.4): the wrapped handler.  The ℕ counts
how many times the inner handler ran (0 = guard short-circuited). -/
def requirePermissionWrap {α β : Type} (code : String) (handler : α → β)
    (identity : Option User) (perms : Permissions) (req : α) :
    Except GatewayError β × ℕ :=
  match requirePermissionCheck code identity perms with
  | Except.error e => (Except.error e, 0)
  | Except.ok _ => (Except.ok (handler req), 1)

/- ------------------------------------------------------------------ -/
/- Panic recovery                                                      -/
/- ------------------------------------------------------------------ -/

/-- Outcome of running a piece of Go code: normal result or a panic carrying
its message. -/
inductive HandlerOutcome (β : Type) where
  | ok (r : β)
  | panicked (msg : String)
  deriving DecidableEq, Repr

/-- An HTTP response, reduced to status and body. -/
structure Response where
  status : ℕ
  body : String
  deriving DecidableEq, Repr

/-- Modelled from the spec (section 7): the generic internal failure a
recovered panic is converted to. -/
def serverErrorResponse : Response :=
  ⟨500, "the server encountered a problem and could not process your request"⟩

/-- Modelled from the spec (section 4.5 / 7): the `recoverPanic` middleware —
a downstream panic is caught, logged, and converted into the generic 500
response; the result type has no panic constructor, so nothing propagates.
The second component is the log. -/
def recoverPanicMiddleware {α : Type} (handler : α → HandlerOutcome Response)
    (req : α) : Response × List String :=
  match handler req with
  | HandlerOutcome.ok r => (r, [])
  | HandlerOutcome.panicked msg => (serverErrorResponse, [msg])

/-- helpers.go lines 122-136: `background(fn)` runs `fn` on its own goroutine
with a deferred `recover` that logs the panic message via
`logger.PrintError`.  Result: the log lines the task produced. -/
def background (fn : Unit → HandlerOutcome Unit) : List String :=
  match fn () with
  | HandlerOutcome.ok _ => []
  | HandlerOutcome.panicked msg => [msg]

/- ------------------------------------------------------------------ -/
/- writeJSON, readIdParam and showMovieHandler                         -/
/- ------------------------------------------------------------------ -/

/-- One call the handler makes on the `http.ResponseWriter`. -/
inductive WriteEvent where
  | header (key : String) (values : List String)
  | writeHeader (status : ℕ)
  | write (chunk : String)
  deriving DecidableEq, Repr

/-- The response writer, as the ordered log of calls made on it. -/
abbrev ResponseWriter := List WriteEvent

/-- helpers.go lines 28-44: `writeJSON`.  `marshal` is the result of
`json.MarshalIndent(data, "", "  ")` — `none` models `err != nil`, in which
case the function returns `nil` (no error) having touched nothing.  On
success it sets the caller's headers, the Content-Type header, the status
code, and writes the body followed by a newline; it returns `nil` on every
path. -/
def writeJSON (marshal : Option String) (status : ℕ)
    (headers : List (String × List String)) (w : ResponseWriter) :
    ResponseWriter × Option String :=
  match marshal with
  | none => (w, none)
  | some dataJSON =>
      let w2 := w ++ headers.map (fun kv => WriteEvent.header kv.1 kv.2)
      let w3 := w2 ++ [WriteEvent.header "Content-Type" ["application/json"]]
      let w4 := w3 ++ [WriteEvent.writeHeader status]
      let w5 := w4 ++ [WriteEvent.write (dataJSON ++ "\n")]
      (w5, none)

/-- A decimal digit's value. -/
def digitVal (c : Char) : Option ℕ :=
  if '0' ≤ c ∧ c ≤ '9' then some (c.toNat - '0'.toNat) else none

/-- The value of a nonempty all-digit string. -/
def parseDigits (s : List Char) : Option ℕ :=
  if s = [] then none
  else
    s.foldl
      (fun acc c =>
        match acc, digitVal c with
        | some n, some d => some (10 * n + d)
        | _, _ => none)
      (some 0)

/-- Go `strconv.ParseInt(s, 10, 64)`: optional sign, then one or more decimal
digits, value within the signed 64-bit range; anything else is an error
(`none`). -/
def parseInt64 (s : List Char) : Option ℤ :=
  let signed : ℤ × List Char :=
    match s with
    | '+' :: r => (1, r)
    | '-' :: r => (-1, r)
    | r => (1, r)
  match parseDigits signed.2 with
  | none => none
  | some n =>
      let v : ℤ := signed.1 * n
      if v < -(2 ^ 63) ∨ 2 ^ 63 ≤ v then none else some v

/-- helpers.go lines 19-26: `readIdParam` — parse the `id` path parameter as a
base-10 64-bit integer; on a parse error or a value below 1, return id 0 and
the error `invalid id parameter`; otherwise the id and no error. -/
def readIdParam (idStr : List Char) : ℤ × Option String :=
  match parseInt64 idStr with
  | none => (0, some "invalid id parameter")
  | some id => if id < 1 then (0, some "invalid id parameter") else (id, none)

/-- The fields of `data.Movie` that showMovieHandler fills in. -/
structure Movie where
  id : ℤ
  createdAt : ℚ
  title : String
  runtime : ℕ
  genres : List String
  version : ℕ
  deriving DecidableEq, Repr

/-- Modelled from the spec: `notFoundResponse` (errors.go is not in the
excerpt) — writes a 404 JSON error message through writeJSON. -/
def notFoundJSON : String := "error: the requested resource could not be found"

/-- Modelled from the spec: the 404 helper used for an unparsable id. -/
def notFoundResponse (w : ResponseWriter) : ResponseWriter :=
  (writeJSON (some notFoundJSON) 404 [] w).1

/-- Modelled from the spec: `serverErrorResponse` (errors.go is not in the
excerpt) — writes the generic 500 failure through writeJSON. -/
def serverErrorResponseW (w : ResponseWriter) : ResponseWriter :=
  (writeJSON (some serverErrorResponse.body) 500 [] w).1

/-- moviesHandlers.go lines 18-39: `showMovieHandler`.  It reads the id; on
error it calls `notFoundResponse` but does NOT return; it then builds the stub
Casablanca movie with whatever id it got (0 on error) and writes it with
status 200 OK.  `marshalMovie` stands for `json.MarshalIndent` on the movie
envelope, which always succeeds on this struct, and `now` for `time.Now()`. -/
def showMovieHandler (marshalMovie : Movie → String) (now : ℚ)
    (idStr : List Char) (w : ResponseWriter) : ResponseWriter :=
  let parsed := readIdParam idStr
  let w2 := match parsed.2 with
    | some _ => notFoundResponse w
    | none => w
  let movie : Movie := ⟨parsed.1, now, "Casablanca", 102, ["drama", "romance", "war"], 1⟩
  let r := writeJSON (some (marshalMovie movie)) 200 [] w2
  match r.2 with
  | some _ => serverErrorResponseW r.1
  | none => r.1

/- ================================================================== -/
/- Theorems                                                            -/
/- ================================================================== -/

/-- A found user carries the id it was looked up by. -/
theorem findUser_id (uid : ℕ) (users : List User) (u : User)
    (h : findUser uid users = some u) : u.id = uid := by
  have := List.find?_some h
  simpa using this

/-- Deleting every record with the given hash and scope makes the lookup for
that hash and scope come up empty. -/
theorem findToken_filter_self (h : String) (sc : Scope) (toks : List TokenRec) :
    findToken h sc
      (toks.filter (fun t => decide (¬ (t.hash = h ∧ t.scope = sc)))) = none := by
  rw [findToken, List.find?_eq_none]
  intro t ht
  have h2 := (List.mem_filter.mp ht).2
  simp only [decide_eq_true_eq] at h2 ⊢
  exact h2

/-- After `updateUser u2`, looking up `u2.id` finds `u2`, provided some user
with that id was present. -/
theorem findUser_updateUser (uid : ℕ) (u u2 : User) (users : List User)
    (hu : findUser uid users = some u) (hid : u2.id = uid) :
    findUser uid (updateUser u2 users) = some u2 := by
  induction users with
  | nil => simp [findUser] at hu
  | cons v vs ih =>
      by_cases hv : v.id = uid
      · simp [findUser, updateUser, List.find?_cons, hv, hid]
      · have hv2 : ¬ v.id = u2.id := by rw [hid]; exact hv
        have hu2 : findUser uid vs = some u := by
          simpa [findUser, List.find?_cons, hv] using hu
        simpa [findUser, updateUser, List.find?_cons, hv, hv2] using ih hu2

/-- C1: for every inbound request, the middleware pipeline is the fixed
composition, outermost first: metrics, then panic recovery, then CORS, then
rate limiting, then authentication, then route dispatch with per-route
permission guards inside; in particular authentication runs after rate
limiting and before any permission check. -/
theorem pipeline_order (r : Route) :
    requestTrace r =
      [Stage.stageMetrics, Stage.stageRecoverPanic, Stage.stageEnableCORS,
       Stage.stageRateLimit, Stage.stageAuthenticate] ++ dispatchTrace r ∧
    stageBefore Stage.stageRateLimit Stage.stageAuthenticate (requestTrace r) ∧
    (∀ code, Stage.permissionGuard code ∈ requestTrace r →
        stageBefore Stage.stageAuthenticate (Stage.permissionGuard code)
          (requestTrace r)) := by
  refine ⟨rfl, ⟨3, 4, by omega, rfl, rfl⟩, ?_⟩
  intro code hmem
  obtain ⟨m, p, perm⟩ := r
  cases perm with
  | none =>
      simp [requestTrace, pipeline, appMetrics, appRecoverPanic, appEnableCORS,
        appRateLimit, appAuthenticate, dispatchTrace] at hmem
  | some c =>
      have hc : code = c := by
        simpa [requestTrace, pipeline, appMetrics, appRecoverPanic, appEnableCORS,
          appRateLimit, appAuthenticate, dispatchTrace] using hmem
      subst hc
      exact ⟨4, 6, by omega, rfl, rfl⟩

/-- Witness for C1 at the concrete route `GET /v1/movies/{id}`. -/
theorem pipeline_order_witness :
    stageBefore Stage.stageAuthenticate (Stage.permissionGuard "movies:read")
      (requestTrace ⟨Method.GET, "/v1/movies/{id}", some "movies:read"⟩) :=
  (pipeline_order ⟨Method.GET, "/v1/movies/{id}", some "movies:read"⟩).2.2
    "movies:read" (by decide)

/-- C9: when marshaling fails, writeJSON returns `nil` (success) and performs
no write on the response; moreover its returned error is `nil` on every path,
so a caller can never observe a marshaling failure through it. -/
theorem writeJSON_swallows_marshal_error (marshal : Option String) (status : ℕ)
    (headers : List (String × List String)) (w : ResponseWriter) :
    writeJSON none status headers w = (w, none) ∧
    (writeJSON marshal status headers w).2 = none := by
  refine ⟨rfl, ?_⟩
  cases marshal <;> rfl

/-- C7: a downstream panic is recovered, logged, and converted into the
generic 500 response (a normal result passes through untouched), and a panic
in a task started through the `background` helper is likewise recovered and
its message logged. -/
theorem panic_recovery (α : Type) (handler : α → HandlerOutcome Response)
    (req : α) :
    (∀ msg, handler req = HandlerOutcome.panicked msg →
        recoverPanicMiddleware handler req = (serverErrorResponse, [msg]) ∧
        serverErrorResponse.status = 500) ∧
    (∀ resp, handler req = HandlerOutcome.ok resp →
        recoverPanicMiddleware handler req = (resp, [])) ∧
    (∀ fn msg, fn () = HandlerOutcome.panicked msg → background fn = [msg]) := by
  refine ⟨?_, ?_, ?_⟩
  · intro msg h
    exact ⟨by simp [recoverPanicMiddleware, h], rfl⟩
  · intro resp h
    simp [recoverPanicMiddleware, h]
  · intro fn msg h
    simp [background, h]

/-- Witness for C7: a handler that panics with message `boom`. -/
theorem panic_recovery_witness :
    recoverPanicMiddleware (fun _ : ℕ => HandlerOutcome.panicked "boom") 0
      = (serverErrorResponse, ["boom"]) ∧
    background (fun _ => HandlerOutcome.panicked "boom") = ["boom"] :=
  ⟨((panic_recovery ℕ (fun _ => HandlerOutcome.panicked "boom") 0).1 "boom" rfl).1,
   (panic_recovery ℕ (fun _ => HandlerOutcome.panicked "boom") 0).2.2
     (fun _ => HandlerOutcome.panicked "boom") "boom" rfl⟩

/-- C5: the authenticator accepts the Authorization header only in the exact
form `Bearer <token>` (single space, single token); any other non-empty form
fails with `MalformedAuthHeader` with zero Token Service invocations, and an
absent header resolves to the Anonymous identity. -/
theorem auth_header_grammar (hash : String → String) (now : ℚ) (st : Store) :
    authenticateMiddleware hash now none st = (AuthResult.anonymous, 0) ∧
    (∀ hv, parseBearer hv = none →
        authenticateMiddleware hash now (some hv) st
          = (AuthResult.failed GatewayError.malformedAuthHeader, 0)) ∧
    (∀ hv tok, parseBearer hv = some tok ↔
        hv = "Bearer ".data ++ tok ∧ tok ≠ [] ∧ ¬ (tok.contains ' ' = true)) := by
  refine ⟨rfl, ?_, ?_⟩
  · intro hv h
    simp [authenticateMiddleware, h]
  · intro hv tok
    constructor
    · intro h
      unfold parseBearer at h
      by_cases hpre : hv.take 7 = "Bearer ".data
      · rw [if_pos hpre] at h
        by_cases hcond : hv.drop 7 ≠ [] ∧ ¬ ((hv.drop 7).contains ' ' = true)
        · rw [if_pos hcond] at h
          injection h with h
          subst h
          refine ⟨?_, hcond.1, hcond.2⟩
          conv_lhs => rw [← List.take_append_drop 7 hv]
          rw [hpre]
        · rw [if_neg hcond] at h
          exact absurd h (by simp)
      · rw [if_neg hpre] at h
        exact absurd h (by simp)
    · rintro ⟨rfl, h1, h2⟩
      unfold parseBearer
      rw [List.take_left' (by decide), List.drop_left' (by decide)]
      have h3 : ' ' ∉ tok := by simpa using h2
      simp [h1, h3]

/-- Witness for C5 at the wrong-scheme header `Token abc`: malformed, zero
store lookups. -/
theorem auth_header_grammar_witness :
    authenticateMiddleware id 0 (some "Token abc".data) ⟨[], []⟩
      = (AuthResult.failed GatewayError.malformedAuthHeader, 0) :=
  (auth_header_grammar id 0 ⟨[], []⟩).2.1 "Token abc".data (by decide)

/-- C6: every movie route is wrapped by the permission guard — read routes
with `movies:read`, write routes with `movies:write` —, an authenticated
activated user lacking the code is refused with `PermissionDenied` and the
wrapped handler never runs, the guard's decision ignores the request payload
(it is a pure guard), and once the code is granted the identical request runs
the handler unchanged. -/
theorem movie_routes_guarded {α β : Type} (u : User) (code : String)
    (perms : Permissions) (handler : α → β) (req : α)
    (hact : u.activated = true) (hcode : code ∉ permissionCodes u.id perms) :
    (∀ r ∈ routes, (r.pattern = "/v1/movies" ∨ r.pattern = "/v1/movies/{id}") →
        (r.method = Method.GET → r.permission = some "movies:read") ∧
        (¬ r.method = Method.GET → r.permission = some "movies:write")) ∧
    requirePermissionWrap code handler (some u) perms req
      = (Except.error GatewayError.permissionDenied, 0) ∧
    requirePermissionCheck code (some u) perms
      = Except.error GatewayError.permissionDenied ∧
    requirePermissionWrap code handler (some u) ((u.id, code) :: perms) req
      = (Except.ok (handler req), 1) := by
  have hchk : requirePermissionCheck code (some u) perms
      = Except.error GatewayError.permissionDenied := by
    simp [requirePermissionCheck, hact, hcode]
  have hmem : code ∈ permissionCodes u.id ((u.id, code) :: perms) := by
    simp [permissionCodes, List.filter_cons]
  refine ⟨by decide, ?_, hchk, ?_⟩
  · simp [requirePermissionWrap, hchk]
  · simp [requirePermissionWrap, requirePermissionCheck, hact, hmem]

/-- Witness for C6: user 7 is activated and holds only `movies:read`; a
`movies:write` guard refuses without running the handler, and granting the
code lets the identical request through. -/
theorem movie_routes_guarded_witness :
    requirePermissionWrap "movies:write" (fun n : ℕ => n + 1)
        (some ⟨7, "a@b", true⟩) [(7, "movies:read")] 5
      = (Except.error GatewayError.permissionDenied, 0) ∧
    requirePermissionWrap "movies:write" (fun n : ℕ => n + 1)
        (some ⟨7, "a@b", true⟩) ((7, "movies:write") :: [(7, "movies:read")]) 5
      = (Except.ok 6, 1) :=
  ⟨(movie_routes_guarded ⟨7, "a@b", true⟩ "movies:write" [(7, "movies:read")]
      (fun n : ℕ => n + 1) 5 rfl (by decide)).2.1,
   (movie_routes_guarded ⟨7, "a@b", true⟩ "movies:write" [(7, "movies:read")]
      (fun n : ℕ => n + 1) 5 rfl (by decide)).2.2.2⟩

/-- C2: two attempts on the identical activation token serialize through the
atomic `consumeActivation` step; the first (in either interleaving: the
operation is the same symmetric step) succeeds, flips the owner's `activated`
flag to true and deletes the record, and the second fails with `InvalidToken`
leaving the state untouched — the flag flips exactly once. -/
theorem activation_single_winner (hash : String → String) (now1 now2 : ℚ)
    (p : String) (st : Store) (tok : TokenRec) (u : User)
    (htok : findToken (hash p) Scope.scopeActivation st.tokens = some tok)
    (hexp : ¬ tok.expiry < now1)
    (huser : findUser tok.userID st.users = some u)
    (_hact : u.activated = false) :
    (consumeActivation hash now1 p st).1 = Except.ok { u with activated := true } ∧
    findUser tok.userID (consumeActivation hash now1 p st).2.users
      = some { u with activated := true } ∧
    findToken (hash p) Scope.scopeActivation
        (consumeActivation hash now1 p st).2.tokens = none ∧
    consumeActivation hash now2 p (consumeActivation hash now1 p st).2
      = (Except.error GatewayError.invalidToken,
         (consumeActivation hash now1 p st).2) := by
  have hid : ({ u with activated := true } : User).id = tok.userID := by
    simpa using findUser_id tok.userID st.users u huser
  have hrun : consumeActivation hash now1 p st
      = (Except.ok { u with activated := true },
         { tokens := st.tokens.filter
             (fun t => decide (¬ (t.hash = hash p ∧ t.scope = Scope.scopeActivation))),
           users := updateUser { u with activated := true } st.users }) := by
    simp [consumeActivation, htok, hexp, huser]
  rw [hrun]
  refine ⟨rfl, ?_, ?_, ?_⟩
  · exact findUser_updateUser tok.userID u { u with activated := true } st.users huser hid
  · exact findToken_filter_self (hash p) Scope.scopeActivation st.tokens
  · have hnone := findToken_filter_self (hash p) Scope.scopeActivation st.tokens
    simp only [consumeActivation, hnone]

/-- Witness for C2: one live activation token, user 1 not yet activated; the
first consume wins, the replayed consume loses with `InvalidToken`. -/
theorem activation_single_winner_witness :
    (consumeActivation id 5 "tok"
        ⟨[⟨"tok", 1, 10, Scope.scopeActivation⟩], [⟨1, "e", false⟩]⟩).1
      = Except.ok ⟨1, "e", true⟩ ∧
    consumeActivation id 6 "tok"
        (consumeActivation id 5 "tok"
          ⟨[⟨"tok", 1, 10, Scope.scopeActivation⟩], [⟨1, "e", false⟩]⟩).2
      = (Except.error GatewayError.invalidToken,
         (consumeActivation id 5 "tok"
           ⟨[⟨"tok", 1, 10, Scope.scopeActivation⟩], [⟨1, "e", false⟩]⟩).2) :=
  ⟨(activation_single_winner id 5 6 "tok"
      ⟨[⟨"tok", 1, 10, Scope.scopeActivation⟩], [⟨1, "e", false⟩]⟩
      ⟨"tok", 1, 10, Scope.scopeActivation⟩ ⟨1, "e", false⟩
      (by decide) (by decide) (by decide) rfl).1,
   (activation_single_winner id 5 6 "tok"
      ⟨[⟨"tok", 1, 10, Scope.scopeActivation⟩], [⟨1, "e", false⟩]⟩
      ⟨"tok", 1, 10, Scope.scopeActivation⟩ ⟨1, "e", false⟩
      (by decide) (by decide) (by decide) rfl).2.2.2⟩

/-- C4: `Authenticate` fails with `InvalidToken` (not a store error) when no
record matches the presented hash; and a token issued with ttl `T`
authenticates successfully at `T - ε` and fails with `ExpiredToken` at
`T + ε`. -/
theorem token_expiry_window (hash : String → String) (now ttl eps : ℚ)
    (uid : ℕ) (p : String) (st : Store) (u : User)
    (heps : 0 < eps)
    (huser : findUser uid st.users = some u) :
    (∀ q (st2 : Store),
        findToken (hash q) Scope.scopeAuthentication st2.tokens = none →
        authenticateToken hash now q st2
          = Except.error GatewayError.invalidToken) ∧
    authenticateToken hash (now + ttl - eps) p
        (issueToken hash now ttl uid Scope.scopeAuthentication p st).1
      = Except.ok u ∧
    authenticateToken hash (now + ttl + eps) p
        (issueToken hash now ttl uid Scope.scopeAuthentication p st).1
      = Except.error GatewayError.expiredToken := by
  have hfind : findToken (hash p) Scope.scopeAuthentication
      ((⟨hash p, uid, now + ttl, Scope.scopeAuthentication⟩ : TokenRec) :: st.tokens)
      = some ⟨hash p, uid, now + ttl, Scope.scopeAuthentication⟩ := by
    simp [findToken, List.find?_cons]
  refine ⟨?_, ?_, ?_⟩
  · intro q st2 h
    simp [authenticateToken, h]
  · have hnl : ¬ (now + ttl < now + ttl - eps) := by linarith
    simp [authenticateToken, issueToken, hfind, hnl, huser]
  · have hl : now + ttl < now + ttl + eps := by linarith
    simp [authenticateToken, issueToken, hfind, hl]

/-- Witness for C4: a token issued at time 0 with ttl 10 for user 1
authenticates at time 9 and is expired at time 11; an unmatched hash is
`InvalidToken`. -/
theorem token_expiry_window_witness :
    authenticateToken id (0 + 10 - 1) "t"
        (issueToken id 0 10 1 Scope.scopeAuthentication "t" ⟨[], [⟨1, "e", true⟩]⟩).1
      = Except.ok ⟨1, "e", true⟩ ∧
    authenticateToken id (0 + 10 + 1) "t"
        (issueToken id 0 10 1 Scope.scopeAuthentication "t" ⟨[], [⟨1, "e", true⟩]⟩).1
      = Except.error GatewayError.expiredToken ∧
    authenticateToken id 0 "garbage" ⟨[], [⟨1, "e", true⟩]⟩
      = Except.error GatewayError.invalidToken :=
  ⟨(token_expiry_window id 0 10 1 1 "t" ⟨[], [⟨1, "e", true⟩]⟩ ⟨1, "e", true⟩
      (by decide) (by decide)).2.1,
   (token_expiry_window id 0 10 1 1 "t" ⟨[], [⟨1, "e", true⟩]⟩ ⟨1, "e", true⟩
      (by decide) (by decide)).2.2,
   (token_expiry_window id 0 10 1 1 "t" ⟨[], [⟨1, "e", true⟩]⟩ ⟨1, "e", true⟩
      (by decide) (by decide)).1 "garbage" ⟨[], [⟨1, "e", true⟩]⟩ (by decide)⟩

/-- A bucket refilled at its own `lastRefill` instant keeps its tokens (they
are already capped). -/
theorem refill_stationary (cfg : LimiterConfig) (t q s : ℚ)
    (hqb : q ≤ (cfg.burst : ℚ)) :
    refill cfg t ⟨q, t, s⟩ = ⟨q, t, t⟩ := by
  simp [refill, Bucket.mk.injEq]
  exact hqb

/-- With `n ≤ k ≤ burst` tokens available, `n` instantaneous `Allow` calls
all succeed and consume exactly `n` tokens. -/
theorem allowRun_full (cfg : LimiterConfig) (t : ℚ) (n : ℕ) :
    ∀ k : ℕ, n ≤ k → k ≤ cfg.burst →
      allowRun cfg t n ⟨(k : ℚ), t, t⟩
        = (List.replicate n true, ⟨((k : ℚ) - (n : ℚ)), t, t⟩) := by
  induction n with
  | zero => intro k _ _; simp [allowRun]
  | succ n ih =>
      intro k hnk hkb
      have hk1 : 1 ≤ k := by omega
      have hkb2 : (k : ℚ) ≤ (cfg.burst : ℚ) := by exact_mod_cast hkb
      have hr : refill cfg t ⟨(k : ℚ), t, t⟩ = ⟨(k : ℚ), t, t⟩ :=
        refill_stationary cfg t (k : ℚ) t hkb2
      have h1k : (1 : ℚ) ≤ (k : ℚ) := by exact_mod_cast hk1
      have hstep : allowBucket cfg t ⟨(k : ℚ), t, t⟩ = (true, ⟨(k : ℚ) - 1, t, t⟩) := by
        simp [allowBucket, hr, h1k]
      have hcast : ((k : ℚ) - 1) = ((k - 1 : ℕ) : ℚ) := by
        push_cast [Nat.cast_sub hk1]
        ring
      have ihk := ih (k - 1) (by omega) (by omega)
      rw [allowRun, hstep]
      simp only []
      rw [hcast, ihk]
      have harith : ((k - 1 : ℕ) : ℚ) - (n : ℚ) = (k : ℚ) - ((n + 1 : ℕ) : ℚ) := by
        rw [← hcast]
        push_cast
        ring
      simp [List.replicate_succ, harith]

/-- With fewer than one token available, instantaneous `Allow` calls all fail
and consume nothing. -/
theorem allowRun_empty (cfg : LimiterConfig) (t q : ℚ) (n : ℕ)
    (hq : q < 1) (hqb : q ≤ (cfg.burst : ℚ)) :
    allowRun cfg t n ⟨q, t, t⟩ = (List.replicate n false, ⟨q, t, t⟩) := by
  induction n with
  | zero => simp [allowRun]
  | succ n ih =>
      have hr : refill cfg t ⟨q, t, t⟩ = ⟨q, t, t⟩ := refill_stationary cfg t q t hqb
      have hstep : allowBucket cfg t ⟨q, t, t⟩ = (false, ⟨q, t, t⟩) := by
        simp [allowBucket, hr]
        linarith
      rw [allowRun, hstep]
      simp [ih, List.replicate_succ]

/-- A run of `m + n` calls is the run of `m` followed by a run of `n` on the
resulting bucket. -/
theorem allowRun_add (cfg : LimiterConfig) (t : ℚ) (m n : ℕ) :
    ∀ b : Bucket,
      allowRun cfg t (m + n) b
        = ((allowRun cfg t m b).1 ++ (allowRun cfg t n (allowRun cfg t m b).2).1,
           (allowRun cfg t n (allowRun cfg t m b).2).2) := by
  induction m with
  | zero => intro b; simp [allowRun]
  | succ m ih =>
      intro b
      have hsucc : m + 1 + n = (m + n) + 1 := by omega
      rw [hsucc, allowRun, allowRun]
      simp only []
      rw [ih]
      simp

/-- A single `Allow` call. -/
theorem allowRun_one (cfg : LimiterConfig) (now : ℚ) (bk : Bucket) :
    allowRun cfg now 1 bk
      = ([(allowBucket cfg now bk).1], (allowBucket cfg now bk).2) := rfl

/-- C3: with the limiter enabled at rate `r > 0` and capacity `b ≥ 1`, each
`Allow` refills then consumes one token exactly when a full token is there;
`b` instantaneous requests on a fresh bucket all succeed, the `(b+1)`th is
rejected and the middleware reports `RateLimitExceeded`, and after waiting
`1/r` seconds exactly one more request succeeds. -/
theorem rate_limit_burst (r : ℚ) (b : ℕ) (t : ℚ) (client : String)
    (hr : 0 < r) (hb : 1 ≤ b) :
    (∀ (now : ℚ) (bk : Bucket),
        ((allowBucket ⟨r, b, true⟩ now bk).1 = true ↔
          1 ≤ (refill ⟨r, b, true⟩ now bk).tokens) ∧
        (allowBucket ⟨r, b, true⟩ now bk).2.tokens
          = (refill ⟨r, b, true⟩ now bk).tokens
            - (if (allowBucket ⟨r, b, true⟩ now bk).1 = true then 1 else 0)) ∧
    allowRun ⟨r, b, true⟩ t b (newBucket ⟨r, b, true⟩ t)
      = (List.replicate b true, ⟨0, t, t⟩) ∧
    allowRun ⟨r, b, true⟩ t (b + 1) (newBucket ⟨r, b, true⟩ t)
      = (List.replicate b true ++ [false], ⟨0, t, t⟩) ∧
    rateLimitMiddleware ⟨r, b, true⟩ t [(client, ⟨0, t, t⟩)] client
      = (Except.error GatewayError.rateLimitExceeded, [(client, ⟨0, t, t⟩)]) ∧
    allowRun ⟨r, b, true⟩ (t + 1 / r) 2 ⟨0, t, t⟩
      = ([true, false], ⟨0, t + 1 / r, t + 1 / r⟩) := by
  have hb0 : (0 : ℚ) ≤ ((b : ℕ) : ℚ) := by positivity
  have hb1 : (1 : ℚ) ≤ ((b : ℕ) : ℚ) := by exact_mod_cast hb
  have hfull : allowRun ⟨r, b, true⟩ t b (newBucket ⟨r, b, true⟩ t)
      = (List.replicate b true, ⟨0, t, t⟩) := by
    have h := allowRun_full ⟨r, b, true⟩ t b b le_rfl le_rfl
    simpa [newBucket] using h
  have hzero : allowRun ⟨r, b, true⟩ t 1 ⟨0, t, t⟩ = ([false], ⟨0, t, t⟩) := by
    have h := allowRun_empty ⟨r, b, true⟩ t 0 1 (by norm_num) hb0
    simpa using h
  refine ⟨?_, hfull, ?_, ?_, ?_⟩
  · intro now bk
    by_cases h : 1 ≤ (refill ⟨r, b, true⟩ now bk).tokens <;>
      simp [allowBucket, h]
  · rw [allowRun_add, hfull]
    simp [hzero]
  · have hs : refill ⟨r, b, true⟩ t ⟨0, t, t⟩ = ⟨0, t, t⟩ :=
      refill_stationary ⟨r, b, true⟩ t 0 t hb0
    have hstep : allowBucket ⟨r, b, true⟩ t ⟨0, t, t⟩ = (false, ⟨0, t, t⟩) := by
      simp [allowBucket, hs]
    simp [rateLimitMiddleware, storeAllow, lookupBucket, hstep, replaceOrInsert]
  · set u := t + 1 / r with hu
    have hx : (0 : ℚ) + (u - t) * r = 1 := by
      rw [hu]
      field_simp
      ring
    have href1 : refill ⟨r, b, true⟩ u ⟨0, t, t⟩ = ⟨1, u, u⟩ := by
      rw [refill]
      congr 1
      rw [hx]
      exact min_eq_left hb1
    have e1 : allowBucket ⟨r, b, true⟩ u ⟨0, t, t⟩ = (true, ⟨0, u, u⟩) := by
      simp only [allowBucket, href1]
      norm_num
    have hs2 : refill ⟨r, b, true⟩ u ⟨0, u, u⟩ = ⟨0, u, u⟩ :=
      refill_stationary ⟨r, b, true⟩ u 0 u hb0
    have e2 : allowBucket ⟨r, b, true⟩ u ⟨0, u, u⟩ = (false, ⟨0, u, u⟩) := by
      simp only [allowBucket, hs2]
      norm_num
    have hrun : allowRun ⟨r, b, true⟩ u 2 ⟨0, t, t⟩
        = ((allowBucket ⟨r, b, true⟩ u ⟨0, t, t⟩).1 ::
            [(allowBucket ⟨r, b, true⟩ u
               (allowBucket ⟨r, b, true⟩ u ⟨0, t, t⟩).2).1],
           (allowBucket ⟨r, b, true⟩ u
             (allowBucket ⟨r, b, true⟩ u ⟨0, t, t⟩).2).2) := rfl
    rw [hrun]
    simp only [e1]
    simp only [e2]

/-- Witness for C3 at the configured defaults `rps = 2`, `burst = 4`
(main.go lines 77-78), starting at time 0. -/
theorem rate_limit_burst_witness :
    allowRun ⟨2, 4, true⟩ 0 5 (newBucket ⟨2, 4, true⟩ 0)
      = (List.replicate 4 true ++ [false], ⟨0, 0, 0⟩) ∧
    rateLimitMiddleware ⟨2, 4, true⟩ 0 [("1.2.3.4", ⟨0, 0, 0⟩)] "1.2.3.4"
      = (Except.error GatewayError.rateLimitExceeded, [("1.2.3.4", ⟨0, 0, 0⟩)]) ∧
    allowRun ⟨2, 4, true⟩ (0 + 1 / 2) 2 ⟨0, 0, 0⟩
      = ([true, false], ⟨0, 0 + 1 / 2, 0 + 1 / 2⟩) :=
  ⟨(rate_limit_burst 2 4 0 "1.2.3.4" (by norm_num) (by norm_num)).2.2.1,
   (rate_limit_burst 2 4 0 "1.2.3.4" (by norm_num) (by norm_num)).2.2.2.1,
   (rate_limit_burst 2 4 0 "1.2.3.4" (by norm_num) (by norm_num)).2.2.2.2⟩

/-- After the sweep, no entry for a client all of whose buckets are stale
remains. -/
theorem sweep_lookup_none (now staleThreshold : ℚ) (client : String) :
    ∀ store : BucketStore,
      (∀ bk, (client, bk) ∈ store → staleThreshold < now - bk.lastSeen) →
      lookupBucket client (sweep now staleThreshold store) = none := by
  intro store
  induction store with
  | nil => intro _; rfl
  | cons e rest ih =>
      intro hstale
      obtain ⟨k, bk⟩ := e
      have hrest : ∀ bk2, (client, bk2) ∈ rest → staleThreshold < now - bk2.lastSeen :=
        fun bk2 hm => hstale bk2 (List.mem_cons_of_mem _ hm)
      by_cases hkeep : now - bk.lastSeen ≤ staleThreshold
      · have hk : ¬ (k = client) := by
          intro he
          subst he
          have h1 := hstale bk (List.mem_cons_self _ _)
          linarith
        rw [sweep, List.filter_cons, if_pos (by simpa using hkeep)]
        simp only [lookupBucket]
        rw [if_neg hk]
        exact ih hrest
      · rw [sweep, List.filter_cons, if_neg (by simpa using hkeep)]
        exact ih hrest

/-- Looking up a client right after `replaceOrInsert` finds the new bucket. -/
theorem lookup_replaceOrInsert (client : String) (b : Bucket) :
    ∀ store : BucketStore, lookupBucket client (replaceOrInsert client b store) = some b := by
  intro store
  induction store with
  | nil => simp [replaceOrInsert, lookupBucket]
  | cons e rest ih =>
      obtain ⟨k, v⟩ := e
      by_cases hk : k = client
      · subst hk
        simp [replaceOrInsert, lookupBucket]
      · simp [replaceOrInsert, lookupBucket, hk, ih]

/-- C8: every bucket of a client stale at sweep time is absent from the store
after the sweep; a subsequent request from that client lazily re-creates a
bucket at full capacity (`burst` tokens, of which the request consumes one),
so the store only holds recently active clients. -/
theorem stale_sweep_recreate (cfg : LimiterConfig) (now now2 staleThreshold : ℚ)
    (store store2 : BucketStore) (client : String)
    (hstale : ∀ bk, (client, bk) ∈ store → staleThreshold < now - bk.lastSeen)
    (habsent : lookupBucket client store2 = none)
    (hen : cfg.enabled = true) (hb : 1 ≤ cfg.burst) :
    lookupBucket client (sweep now staleThreshold store) = none ∧
    newBucket cfg now2 = ⟨(cfg.burst : ℚ), now2, now2⟩ ∧
    storeAllow cfg now2 store2 client
      = (true, replaceOrInsert client ⟨(cfg.burst : ℚ) - 1, now2, now2⟩ store2) ∧
    lookupBucket client (storeAllow cfg now2 store2 client).2
      = some ⟨(cfg.burst : ℚ) - 1, now2, now2⟩ := by
  have hbq : (1 : ℚ) ≤ (cfg.burst : ℚ) := by exact_mod_cast hb
  have hs : refill cfg now2 ⟨(cfg.burst : ℚ), now2, now2⟩
      = ⟨(cfg.burst : ℚ), now2, now2⟩ :=
    refill_stationary cfg now2 (cfg.burst : ℚ) now2 le_rfl
  have hstep : allowBucket cfg now2 (newBucket cfg now2)
      = (true, ⟨(cfg.burst : ℚ) - 1, now2, now2⟩) := by
    simp [allowBucket, newBucket, hs, hbq]
  have hallow : storeAllow cfg now2 store2 client
      = (true, replaceOrInsert client ⟨(cfg.burst : ℚ) - 1, now2, now2⟩ store2) := by
    simp [storeAllow, hen, habsent, hstep]
  refine ⟨sweep_lookup_none now staleThreshold client store hstale, rfl, hallow, ?_⟩
  rw [hallow]
  exact lookup_replaceOrInsert client ⟨(cfg.burst : ℚ) - 1, now2, now2⟩ store2

/-- Witness for C8: a bucket last seen at time 0 is stale at time 100 with
threshold 3 and swept; the client's next request at time 101 re-creates a
full bucket (4 tokens, one consumed). -/
theorem stale_sweep_recreate_witness :
    lookupBucket "c" (sweep 100 3 [("c", ⟨2, 0, 0⟩)]) = none ∧
    storeAllow ⟨2, 4, true⟩ 101 [] "c"
      = (true, replaceOrInsert "c" ⟨(4 : ℚ) - 1, 101, 101⟩ []) :=
  ⟨(stale_sweep_recreate ⟨2, 4, true⟩ 100 101 3 [("c", ⟨2, 0, 0⟩)] [] "c"
      (by intro bk hm; simp at hm; subst hm; norm_num)
      rfl rfl (by norm_num)).1,
   (stale_sweep_recreate ⟨2, 4, true⟩ 100 101 3 [("c", ⟨2, 0, 0⟩)] [] "c"
      (by intro bk hm; simp at hm; subst hm; norm_num)
      rfl rfl (by norm_num)).2.2.1⟩

/-- C10: when the id path parameter fails to parse, showMovieHandler calls
notFoundResponse but does not return early: it then still builds the stub
movie with the zero id and writes a second, 200 OK JSON response to the same
request. -/
theorem show_movie_double_write (marshalMovie : Movie → String) (now : ℚ)
    (idStr : List Char) (w : ResponseWriter)
    (herr : (readIdParam idStr).2 ≠ none) :
    (readIdParam idStr).1 = 0 ∧
    showMovieHandler marshalMovie now idStr w
      = (w ++ [WriteEvent.header "Content-Type" ["application/json"],
               WriteEvent.writeHeader 404,
               WriteEvent.write (notFoundJSON ++ "\n")])
        ++ [WriteEvent.header "Content-Type" ["application/json"],
            WriteEvent.writeHeader 200,
            WriteEvent.write
              (marshalMovie ⟨0, now, "Casablanca", 102,
                 ["drama", "romance", "war"], 1⟩ ++ "\n")] := by
  have hred : readIdParam idStr = (0, some "invalid id parameter") := by
    cases h : parseInt64 idStr with
    | none => rw [readIdParam, h]
    | some id =>
        rw [readIdParam, h] at herr
        rw [readIdParam, h]
        by_cases hlt : id < 1
        · show (if id < 1 then ((0 : ℤ), some "invalid id parameter") else (id, none))
            = (0, some "invalid id parameter")
          rw [if_pos hlt]
        · have herr2 : (if id < 1 then ((0 : ℤ), some "invalid id parameter")
              else (id, none)).2 ≠ none := herr
          rw [if_neg hlt] at herr2
          exact absurd rfl herr2
  refine ⟨by rw [hred], ?_⟩
  simp [showMovieHandler, hred, notFoundResponse, writeJSON]

/-- Witness for C10 at the unparsable id `abc`. -/
theorem show_movie_double_write_witness :
    showMovieHandler (fun _ => "J") 0 "abc".data []
      = ([] ++ [WriteEvent.header "Content-Type" ["application/json"],
                WriteEvent.writeHeader 404,
                WriteEvent.write (notFoundJSON ++ "\n")])
        ++ [WriteEvent.header "Content-Type" ["application/json"],
            WriteEvent.writeHeader 200,
            WriteEvent.write ((fun _ => "J")
              (⟨0, 0, "Casablanca", 102, ["drama", "romance", "war"], 1⟩ : Movie)
              ++ "\n")] :=
  (show_movie_double_write (fun _ => "J") 0 "abc".data [] (by decide)).2

end Greenlight
